import Mathlib

set_option maxHeartbeats 1000000

/-!
Shallow embedding of `src/youtube_auth.py`.

The script drives an external headless browser: it launches a driver,
navigates to a URL, waits up to 20 seconds for the element with id
"movie_player", reads the session cookies, joins them into a cookie
string and prints `--cookies '<cookie_string>'`.  All failures inside the
`try` block are caught by one `except Exception` handler that prints
`Error: <message>` to stderr and exits with status 1; the `finally`
block quits the driver whenever the local variable `driver` was bound,
i.e. whenever `webdriver.Firefox(...)` returned.

The browser is an external collaborator, so each externally-determined
step outcome (launch, navigation, the time at which "movie_player"
appears, the cookie read) is a field of an environment record `Env`,
and the script is a pure function from `Env` (and `sys.argv`) to an
observable `RunState`: the lines written to stdout and stderr, the exit
status, whether a driver session was acquired, and how many times it
was released via `driver.quit()`.
-/

/-- A browser cookie: the `name` and `value` fields read from
`driver.get_cookies()`. -/
structure Cookie where
  name : String
  value : String
deriving DecidableEq, Repr

/-- The single-quote character `'` (code point 39), used by the
`print(f"--cookies '{cookie_string}'")` line of the script. -/
def squote : String := String.singleton (Char.ofNat 39)

/-- One `name=value` segment, the f-string `f"{cookie['name']}={cookie['value']}"`
from line 27 of the source. -/
def cookiePair (c : Cookie) : String := c.name ++ "=" ++ c.value

/-- Line 27 of the source:
`cookie_string = "; ".join([f"{cookie['name']}={cookie['value']}" for cookie in cookies])`. -/
def cookie_string (cookies : List Cookie) : String :=
  String.intercalate "; " (cookies.map cookiePair)

/-- The timeout of the `WebDriverWait(driver, 20)` on line 21. -/
def waitTimeoutSeconds : Nat := 20

/-- The id of the awaited element on line 22. -/
def moviePlayerId : String := "movie_player"

/-- The usage message printed on line 41. -/
def usageMessage : String := "Usage: python youtube_auth.py <youtube_url>"

/-- The externally-determined outcomes of the browser-facing steps of one
run.  `elementAppear` is the instant (in seconds after navigation) at which
the element with id "movie_player" becomes present, `none` when it never
does; `waitErrMsg` is `str(e)` of the exception the wait raises if it times
out; the other fields are the outcome of the corresponding driver call,
`Except.error m` meaning the call raised an exception whose `str` is `m`. -/
structure Env where
  launch : Except String Unit
  nav : Except String Unit
  elementAppear : Option Nat
  waitErrMsg : String
  cookies : Except String (List Cookie)

/-- `WebDriverWait(driver, timeout).until(EC.presence_of_element_located(...))`:
succeeds iff the element becomes present within `timeout` seconds, otherwise
raises an exception (with message `errMsg`). -/
def webDriverWaitUntil (timeout : Nat) (appearAt : Option Nat) (errMsg : String) :
    Except String Unit :=
  match appearAt with
  | some t => if t ≤ timeout then Except.ok () else Except.error errMsg
  | none => Except.error errMsg

/-- Outcome of the `try` block (lines 16–30): either every step succeeded
and `driver.get_cookies()` returned the given list, or some step raised,
carrying the exception message and whether `driver` was bound in `locals()`
at that point (i.e. whether `webdriver.Firefox(...)` had returned). -/
inductive TryOutcome where
  | success : List Cookie → TryOutcome
  | failure : String → Bool → TryOutcome
deriving DecidableEq, Repr

/-- The `try` block of `authenticate_youtube`, lines 16–30: launch the
driver, navigate, wait for "movie_player", read the cookies. -/
def tryBlock (env : Env) : TryOutcome :=
  match env.launch with
  | Except.error e => TryOutcome.failure e false
  | Except.ok _ =>
    match env.nav with
    | Except.error e => TryOutcome.failure e true
    | Except.ok _ =>
      match webDriverWaitUntil waitTimeoutSeconds env.elementAppear env.waitErrMsg with
      | Except.error e => TryOutcome.failure e true
      | Except.ok _ =>
        match env.cookies with
        | Except.error e => TryOutcome.failure e true
        | Except.ok cs => TryOutcome.success cs

/-- Observable behaviour of one run: the lines written to stdout and
stderr, the process exit status, whether the driver session was acquired,
and how many times `driver.quit()` ran. -/
structure RunState where
  stdout : List String
  stderr : List String
  exitCode : Nat
  acquired : Bool
  releasedCount : Nat
deriving DecidableEq, Repr

/-- `authenticate_youtube(url)`, lines 10–37.  On success (the whole `try`
block ran) the script prints `--cookies '<cookie_string>'` and returns,
so the process later exits 0; on any caught failure the `except` handler
prints `Error: <message>` to stderr and calls `sys.exit(1)`; the `finally`
block calls `driver.quit()` exactly when `'driver' in locals()`. -/
def authenticate_youtube (env : Env) : RunState :=
  match tryBlock env with
  | TryOutcome.success cs =>
      { stdout := ["--cookies " ++ squote ++ cookie_string cs ++ squote],
        stderr := [], exitCode := 0, acquired := true, releasedCount := 1 }
  | TryOutcome.failure e acq =>
      { stdout := [], stderr := ["Error: " ++ e], exitCode := 1,
        acquired := acq, releasedCount := if acq then 1 else 0 }

/-- The `__main__` guard, lines 39–44: with `len(sys.argv) != 2` print the
usage message (to stdout) and exit 1 without touching the browser;
otherwise run `authenticate_youtube(sys.argv[1])`.  `argv` models
`sys.argv`, program name included. -/
def mainProg (argv : List String) (env : Env) : RunState :=
  if argv.length ≠ 2 then
    { stdout := [usageMessage], stderr := [], exitCode := 1,
      acquired := false, releasedCount := 0 }
  else
    authenticate_youtube env

/-- All four externally-fallible steps of the `try` block succeed. -/
def stepsAllOk (env : Env) : Prop :=
  env.launch = Except.ok () ∧ env.nav = Except.ok () ∧
  webDriverWaitUntil waitTimeoutSeconds env.elementAppear env.waitErrMsg = Except.ok () ∧
  ∃ cs, env.cookies = Except.ok cs

/-- Spec-side description of the Cookie String (§3 of the spec): one
`name=value` segment per cookie, in order, segments joined by `"; "`,
no leading or trailing separator.  Written from the spec's words, to be
compared with `cookie_string`, which is written from the source. -/
def cookieStringSpec : List Cookie → String
  | [] => ""
  | [c] => cookiePair c
  | c :: d :: rest => cookiePair c ++ "; " ++ cookieStringSpec (d :: rest)

/-- The suffix `sep ++ a₁ ++ sep ++ a₂ ++ ...` contributed by the elements
after the first; helper for reasoning about `String.intercalate`. -/
def sepTail (sep : String) : List String → String
  | [] => ""
  | a :: as => sep ++ a ++ sepTail sep as

theorem intercalate_go_eq (sep : String) :
    ∀ (as : List String) (acc : String),
      String.intercalate.go acc sep as = acc ++ sepTail sep as := by
  intro as
  induction as with
  | nil => intro acc; simp [String.intercalate.go, sepTail]
  | cons a as ih =>
      intro acc
      simp only [String.intercalate.go, sepTail, ih]
      rw [String.append_assoc, String.append_assoc, String.append_assoc]

theorem intercalate_eq_sepTail (sep : String) (a : String) (as : List String) :
    String.intercalate sep (a :: as) = a ++ sepTail sep as := by
  simp [String.intercalate, intercalate_go_eq]

/-- A failing step in the `try` block yields a `failure` outcome. -/
theorem tryBlock_failure_of_not_ok (env : Env) (h : ¬ stepsAllOk env) :
    ∃ e acq, tryBlock env = TryOutcome.failure e acq := by
  unfold stepsAllOk at h
  unfold tryBlock
  match hl : env.launch with
  | Except.error e => exact ⟨e, false, rfl⟩
  | Except.ok u =>
    cases u
    match hn : env.nav with
    | Except.error e => exact ⟨e, true, rfl⟩
    | Except.ok u =>
      cases u
      match hw : webDriverWaitUntil waitTimeoutSeconds env.elementAppear env.waitErrMsg with
      | Except.error e => exact ⟨e, true, rfl⟩
      | Except.ok u =>
        cases u
        match hc : env.cookies with
        | Except.error e => exact ⟨e, true, rfl⟩
        | Except.ok cs => exact absurd ⟨hl, hn, hw, cs, hc⟩ h

/-- A sample environment in which every step succeeds. -/
def envOkSample : Env :=
  { launch := Except.ok (), nav := Except.ok (), elementAppear := some 3,
    waitErrMsg := "timed out", cookies := Except.ok [⟨"a", "b"⟩] }

/-- A sample environment in which the driver launch fails. -/
def envLaunchFail : Env :=
  { launch := Except.error "geckodriver not found", nav := Except.ok (),
    elementAppear := some 3, waitErrMsg := "timed out",
    cookies := Except.ok [] }

/-- A sample environment in which the element never appears. -/
def envNeverAppears : Env :=
  { launch := Except.ok (), nav := Except.ok (), elementAppear := none,
    waitErrMsg := "timed out after 20s", cookies := Except.ok [] }

/-- A sample environment in which navigation fails. -/
def envNavFail : Env :=
  { launch := Except.ok (), nav := Except.error "dns error",
    elementAppear := some 3, waitErrMsg := "timed out",
    cookies := Except.ok [] }

/-- A second sample all-success environment with the same cookie list as
`envOkSample` but different timing and messages. -/
def envOkSample2 : Env :=
  { launch := Except.ok (), nav := Except.ok (), elementAppear := some 17,
    waitErrMsg := "other timeout", cookies := Except.ok [⟨"a", "b"⟩] }

/-- An all-success environment whose session reports zero cookies. -/
def envOkEmptyCookies : Env :=
  { launch := Except.ok (), nav := Except.ok (), elementAppear := some 0,
    waitErrMsg := "timed out", cookies := Except.ok [] }

/-- C1: when launch, navigation, the bounded wait for "movie_player" and the
cookie read all succeed, the run writes exactly the one line
`--cookies '<cookie_string>'` to stdout (so it matches the shape
`--cookies '...'`), writes nothing else to stdout or stderr, and exits 0. -/
theorem C1_success_single_line (env : Env) (cs : List Cookie)
    (hl : env.launch = Except.ok ()) (hn : env.nav = Except.ok ())
    (hw : webDriverWaitUntil waitTimeoutSeconds env.elementAppear env.waitErrMsg = Except.ok ())
    (hc : env.cookies = Except.ok cs) :
    (authenticate_youtube env).stdout =
      ["--cookies " ++ squote ++ cookie_string cs ++ squote] ∧
    (∃ s, (authenticate_youtube env).stdout = ["--cookies " ++ squote ++ s ++ squote]) ∧
    (authenticate_youtube env).stderr = [] ∧
    (authenticate_youtube env).exitCode = 0 := by
  unfold authenticate_youtube tryBlock
  rw [hl, hn, hw, hc]
  exact ⟨rfl, ⟨cookie_string cs, rfl⟩, rfl, rfl⟩

/-- Witness for C1 at a concrete all-success environment. -/
theorem C1_success_single_line_witness :
    (authenticate_youtube envOkSample).stdout =
      ["--cookies " ++ squote ++ cookie_string [⟨"a", "b"⟩] ++ squote] ∧
    (∃ s, (authenticate_youtube envOkSample).stdout =
      ["--cookies " ++ squote ++ s ++ squote]) ∧
    (authenticate_youtube envOkSample).stderr = [] ∧
    (authenticate_youtube envOkSample).exitCode = 0 :=
  C1_success_single_line envOkSample [⟨"a", "b"⟩] rfl rfl rfl rfl

/-- C2: the cookie string of line 27 has exactly one `name=value` segment
per cookie, in the order the session reported them, segments joined by the
two-character separator `"; "`, with no leading or trailing separator —
i.e. the source's join coincides with the spec-side recursive description. -/
theorem C2_cookie_string_spec (cookies : List Cookie) :
    cookie_string cookies = cookieStringSpec cookies := by
  induction cookies with
  | nil => rfl
  | cons c rest ih =>
    cases rest with
    | nil =>
        show String.intercalate "; " [cookiePair c] = cookiePair c
        rw [intercalate_eq_sepTail]
        exact String.append_empty _
    | cons d rest2 =>
        have h1 : cookie_string (c :: d :: rest2) =
            cookiePair c ++ sepTail "; " ((d :: rest2).map cookiePair) := by
          unfold cookie_string
          rw [List.map_cons, intercalate_eq_sepTail]
        have h2 : cookie_string (d :: rest2) =
            cookiePair d ++ sepTail "; " (rest2.map cookiePair) := by
          unfold cookie_string
          rw [List.map_cons, intercalate_eq_sepTail]
        rw [h1, List.map_cons, sepTail]
        show cookiePair c ++ ("; " ++ cookiePair d ++ sepTail "; " (rest2.map cookiePair)) =
          cookieStringSpec (c :: d :: rest2)
        rw [cookieStringSpec, ← ih, h2]
        rw [← String.append_assoc, ← String.append_assoc]
        exact String.append_assoc _ _ _

/-- C3: whenever any of the four externally-fallible steps of the `try`
block fails, the single `except Exception` handler writes exactly one line
`Error: <message>` to stderr and the process exits with status 1 — the same
undifferentiated shape whatever the sub-cause. -/
theorem C3_failure_single_error_line (env : Env) (h : ¬ stepsAllOk env) :
    (∃ m, (authenticate_youtube env).stderr = ["Error: " ++ m]) ∧
    (authenticate_youtube env).exitCode = 1 := by
  obtain ⟨e, acq, hf⟩ := tryBlock_failure_of_not_ok env h
  unfold authenticate_youtube
  rw [hf]
  exact ⟨⟨e, rfl⟩, rfl⟩

/-- Witness for C3 at a concrete environment where the launch fails. -/
theorem C3_failure_single_error_line_witness :
    (¬ stepsAllOk envLaunchFail) ∧
    ((∃ m, (authenticate_youtube envLaunchFail).stderr = ["Error: " ++ m]) ∧
     (authenticate_youtube envLaunchFail).exitCode = 1) :=
  ⟨fun h => Except.noConfusion h.1,
   C3_failure_single_error_line envLaunchFail (fun h => Except.noConfusion h.1)⟩

/-- C4: with an argument count other than exactly one positional argument
(`len(sys.argv) != 2`), the program prints the usage message to stdout (not
stderr) and exits with status 1, acquiring no browser session and releasing
nothing. -/
theorem C4_usage_error (argv : List String) (env : Env) (h : argv.length ≠ 2) :
    (mainProg argv env).stdout = [usageMessage] ∧
    (mainProg argv env).stderr = [] ∧
    (mainProg argv env).exitCode = 1 ∧
    (mainProg argv env).acquired = false ∧
    (mainProg argv env).releasedCount = 0 := by
  unfold mainProg
  rw [if_pos h]
  exact ⟨rfl, rfl, rfl, rfl, rfl⟩

/-- Witness for C4 with zero positional arguments. -/
theorem C4_usage_error_witness :
    (["youtube_auth.py"].length ≠ 2) ∧
    ((mainProg ["youtube_auth.py"] envOkSample).stdout = [usageMessage] ∧
     (mainProg ["youtube_auth.py"] envOkSample).stderr = [] ∧
     (mainProg ["youtube_auth.py"] envOkSample).exitCode = 1 ∧
     (mainProg ["youtube_auth.py"] envOkSample).acquired = false ∧
     (mainProg ["youtube_auth.py"] envOkSample).releasedCount = 0) :=
  ⟨by decide, C4_usage_error ["youtube_auth.py"] envOkSample (by decide)⟩

/-- C5: on every exit path, `driver.quit()` runs exactly once if the session
was acquired and zero times otherwise; and the session counts as acquired
exactly when `webdriver.Firefox(...)` returned (the `'driver' in locals()`
guard of the `finally` block). -/
theorem C5_release_exactly_once (env : Env) :
    (authenticate_youtube env).releasedCount =
      (if (authenticate_youtube env).acquired then 1 else 0) ∧
    (authenticate_youtube env).acquired =
      (match env.launch with
       | Except.ok _ => true
       | Except.error _ => false) := by
  unfold authenticate_youtube tryBlock
  match env.launch with
  | Except.error e => exact ⟨rfl, rfl⟩
  | Except.ok u =>
    cases u
    match env.nav with
    | Except.error e => exact ⟨rfl, rfl⟩
    | Except.ok u =>
      cases u
      match webDriverWaitUntil waitTimeoutSeconds env.elementAppear env.waitErrMsg with
      | Except.error e => exact ⟨rfl, rfl⟩
      | Except.ok u =>
        cases u
        match env.cookies with
        | Except.error e => exact ⟨rfl, rfl⟩
        | Except.ok cs => exact ⟨rfl, rfl⟩

/-- C6: if launch and navigation succeed but "movie_player" never becomes
present, the 20-second wait fails, the run exits 1 with a single non-empty
stderr line, and the acquired session is released exactly once. -/
theorem C6_element_never_present (env : Env)
    (hl : env.launch = Except.ok ()) (hn : env.nav = Except.ok ())
    (he : env.elementAppear = none) :
    (authenticate_youtube env).exitCode = 1 ∧
    (∃ m, (authenticate_youtube env).stderr = [m] ∧ m ≠ "") ∧
    (authenticate_youtube env).acquired = true ∧
    (authenticate_youtube env).releasedCount = 1 := by
  have hw : webDriverWaitUntil waitTimeoutSeconds env.elementAppear env.waitErrMsg =
      Except.error env.waitErrMsg := by rw [he]; rfl
  unfold authenticate_youtube tryBlock
  rw [hl, hn, hw]
  refine ⟨rfl, ⟨"Error: " ++ env.waitErrMsg, rfl, ?_⟩, rfl, rfl⟩
  intro hcontra
  have hlen := congrArg String.length hcontra
  rw [String.length_append] at hlen
  have h7 : ("Error: ").length = 7 := rfl
  have h0 : ("" : String).length = 0 := rfl
  omega

/-- Witness for C6 at a concrete environment where the element never
appears. -/
theorem C6_element_never_present_witness :
    envNeverAppears.launch = Except.ok () ∧
    envNeverAppears.nav = Except.ok () ∧
    envNeverAppears.elementAppear = none ∧
    ((authenticate_youtube envNeverAppears).exitCode = 1 ∧
     (∃ m, (authenticate_youtube envNeverAppears).stderr = [m] ∧ m ≠ "") ∧
     (authenticate_youtube envNeverAppears).acquired = true ∧
     (authenticate_youtube envNeverAppears).releasedCount = 1) :=
  ⟨rfl, rfl, rfl, C6_element_never_present envNeverAppears rfl rfl rfl⟩

/-- C7: when extraction succeeds with zero cookies, the joined cookie
string is empty and the program prints the line `--cookies ''` and
exits 0. -/
theorem C7_zero_cookies (env : Env)
    (hl : env.launch = Except.ok ()) (hn : env.nav = Except.ok ())
    (hw : webDriverWaitUntil waitTimeoutSeconds env.elementAppear env.waitErrMsg = Except.ok ())
    (hc : env.cookies = Except.ok []) :
    cookie_string [] = "" ∧
    (authenticate_youtube env).stdout = ["--cookies " ++ squote ++ squote] ∧
    (authenticate_youtube env).exitCode = 0 := by
  unfold authenticate_youtube tryBlock
  rw [hl, hn, hw, hc]
  refine ⟨rfl, ?_, rfl⟩
  show ["--cookies " ++ squote ++ cookie_string [] ++ squote] = _
  rw [show cookie_string [] = "" from rfl, String.append_empty]

/-- Witness for C7 at a concrete all-success environment with zero
cookies. -/
theorem C7_zero_cookies_witness :
    cookie_string [] = "" ∧
    (authenticate_youtube envOkEmptyCookies).stdout =
      ["--cookies " ++ squote ++ squote] ∧
    (authenticate_youtube envOkEmptyCookies).exitCode = 0 :=
  C7_zero_cookies envOkEmptyCookies rfl rfl rfl rfl

/-- C8: any two successful runs produce stdout lines of the identical
structural shape `--cookies '<...>'`, and the formatting is deterministic:
equal cookie lists yield equal stdout. -/
theorem C8_format_deterministic (env1 env2 : Env) (cs1 cs2 : List Cookie)
    (h1l : env1.launch = Except.ok ()) (h1n : env1.nav = Except.ok ())
    (h1w : webDriverWaitUntil waitTimeoutSeconds env1.elementAppear env1.waitErrMsg =
      Except.ok ())
    (h1c : env1.cookies = Except.ok cs1)
    (h2l : env2.launch = Except.ok ()) (h2n : env2.nav = Except.ok ())
    (h2w : webDriverWaitUntil waitTimeoutSeconds env2.elementAppear env2.waitErrMsg =
      Except.ok ())
    (h2c : env2.cookies = Except.ok cs2) :
    (∃ s, (authenticate_youtube env1).stdout = ["--cookies " ++ squote ++ s ++ squote]) ∧
    (∃ s, (authenticate_youtube env2).stdout = ["--cookies " ++ squote ++ s ++ squote]) ∧
    (cs1 = cs2 → (authenticate_youtube env1).stdout = (authenticate_youtube env2).stdout) := by
  unfold authenticate_youtube tryBlock
  rw [h1l, h1n, h1w, h1c, h2l, h2n, h2w, h2c]
  exact ⟨⟨cookie_string cs1, rfl⟩, ⟨cookie_string cs2, rfl⟩, fun h => by rw [h]⟩

/-- Witness for C8 at two concrete all-success environments that differ in
timing and messages but report the same cookie list. -/
theorem C8_format_deterministic_witness :
    (∃ s, (authenticate_youtube envOkSample).stdout =
      ["--cookies " ++ squote ++ s ++ squote]) ∧
    (∃ s, (authenticate_youtube envOkSample2).stdout =
      ["--cookies " ++ squote ++ s ++ squote]) ∧
    (([⟨"a", "b"⟩] : List Cookie) = [⟨"a", "b"⟩] →
      (authenticate_youtube envOkSample).stdout =
        (authenticate_youtube envOkSample2).stdout) :=
  C8_format_deterministic envOkSample envOkSample2 [⟨"a", "b"⟩] [⟨"a", "b"⟩]
    rfl rfl rfl rfl rfl rfl rfl rfl

/-- C9: the formatter interpolates names and values verbatim, so it is not
injective — a value containing `"; b=c"` collides with two separate
cookies — hence no round-trip from cookie string to cookie list exists;
and a value containing a single quote puts a third quote character inside
the printed line, breaking the outer quoting. -/
theorem C9_formatter_not_injective :
    (∃ cs1 cs2 : List Cookie, cs1 ≠ cs2 ∧ cookie_string cs1 = cookie_string cs2) ∧
    (¬ ∃ g : String → List Cookie, ∀ cs, g (cookie_string cs) = cs) ∧
    ("--cookies " ++ squote ++ cookie_string [⟨"a", "b" ++ squote ++ "c"⟩] ++ squote).data.count
      (Char.ofNat 39) = 3 := by
  refine ⟨⟨[⟨"a", "b; b=c"⟩], [⟨"a", "b"⟩, ⟨"b", "c"⟩], ?_, ?_⟩, ?_, ?_⟩
  · decide
  · decide
  · rintro ⟨g, hg⟩
    have h1 := hg [⟨"a", "b; b=c"⟩]
    have h2 := hg [⟨"a", "b"⟩, ⟨"b", "c"⟩]
    have heq : cookie_string [(⟨"a", "b; b=c"⟩ : Cookie)] =
        cookie_string [⟨"a", "b"⟩, ⟨"b", "c"⟩] := by decide
    rw [heq, h2] at h1
    exact absurd h1 (by decide)
  · decide

/-- C10: on every caught runtime failure nothing has been written to
stdout — the one stdout write is the last statement of the `try` block, so
it runs only after every step has succeeded. -/
theorem C10_no_stdout_on_failure (env : Env) (h : ¬ stepsAllOk env) :
    (authenticate_youtube env).stdout = [] := by
  obtain ⟨e, acq, hf⟩ := tryBlock_failure_of_not_ok env h
  unfold authenticate_youtube
  rw [hf]

/-- Witness for C10 at a concrete environment where navigation fails. -/
theorem C10_no_stdout_on_failure_witness :
    (¬ stepsAllOk envNavFail) ∧ (authenticate_youtube envNavFail).stdout = [] :=
  ⟨fun h => Except.noConfusion h.2.1,
   C10_no_stdout_on_failure envNavFail (fun h => Except.noConfusion h.2.1)⟩
